import Mathlib

/-!
Verification of the stream service layer and the end-to-end harness of a
Qlik Sense QRS client library.  The service methods of
`qlik_sense/services/stream.py` are embedded as pure Lean functions over an
explicit environment that records the responses of the remote server; every
base-service helper emits the one request it performs, so round trips are
observable as a trace.  The helpers of the base service class, the server
behaviour, and Python object semantics (class attributes, `list.append`)
are modelled from the specification where their code is not part of the
two source files.
-/

namespace QlikSense

/-- A Qlik Sense stream record: `id` is optional (absent until created),
`name` is the display name, `owner` stands for the full-attribution
fields. -/
structure Stream where
  id : Option String
  name : String
  owner : Option String
deriving DecidableEq

/-- The two marshmallow schemas a stream service can serialize with:
`StreamCondensedSchema` (limited attribution) and `StreamSchema`
(full attribution). -/
inductive Schema where
  | streamCondensedSchema
  | streamSchema
deriving DecidableEq

/-- One HTTP round trip issued by a base-service helper, with the data that
determines the request sent on the wire. -/
inductive Request where
  | getTemplateReq (entityType : String) (listEntries : Bool)
  | queryReq (schema : Schema) (filterBy orderBy : Option String)
      (privileges : Option (List String)) (fullAttribution : Bool)
  | createReq (entity : Stream)
  | createManyReq (entities : List Stream)
deriving DecidableEq

/-- The remote server as seen by one client: what each endpoint answers.
`template` is the response of the template endpoint (per `list_entries`
flag), `queryResp` the parsed result of a collection query, `confirm` the
server-assigned and confirmed fields of a created entity, and the two
`Ok` flags tell whether a create call succeeds. -/
structure Env where
  template : Bool → Option Stream
  queryResp : Schema → Option String → Option String → Option (List String) → Option (List Stream)
  createOk : Bool
  createManyOk : Bool
  confirm : Stream → Stream

namespace BaseService

/-- Modelled from the spec: `BaseService._get_template(schema, entity_type,
list_entries)` performs one GET against the template endpoint and returns a
default instance of the entity, or `None` on failure. -/
def _get_template (env : Env) (schema : Schema) (entityType : String) (listEntries : Bool) :
    Option Stream × List Request :=
  (env.template listEntries, [Request.getTemplateReq entityType listEntries])

/-- Modelled from the spec: `BaseService._query(schema, filter_by, order_by,
privileges, full_attribution)` performs one GET with the filter, order-by
and privileges parameters and parses the response through the schema into a
list of typed objects, or `None` when the call yields no list. -/
def _query (env : Env) (schema : Schema) (filter_by order_by : Option String)
    (privileges : Option (List String)) (full_attribution : Bool) :
    Option (List Stream) × List Request :=
  (env.queryResp schema filter_by order_by privileges,
   [Request.queryReq schema filter_by order_by privileges full_attribution])

/-- Modelled from the spec: `BaseService._create(schema, entity, privileges)`
POSTs the entity JSON in one round trip and returns the parsed created
object with server-assigned and confirmed fields, or signals failure. -/
def _create (env : Env) (schema : Schema) (entity : Stream)
    (privileges : Option (List String)) : Option Stream × List Request :=
  ((if env.createOk then some (env.confirm entity) else none),
   [Request.createReq entity])

/-- Modelled from the spec: `BaseService._create_many(schema, entities,
privileges)` POSTs the batch in one round trip and returns the list of
created objects in an order corresponding to the input order, or signals
failure as dictated by the single underlying HTTP call. -/
def _create_many (env : Env) (schema : Schema) (entities : List Stream)
    (privileges : Option (List String)) : Option (List Stream) × List Request :=
  ((if env.createManyOk then some (entities.map env.confirm) else none),
   [Request.createManyReq entities])

end BaseService

namespace StreamService

/-- From `StreamService.query`: chooses the full or the condensed schema by
the `full_attribution` flag and delegates to `_query` with every argument
passed through. -/
def query (env : Env) (filter_by order_by : Option String)
    (privileges : Option (List String)) (full_attribution : Bool) :
    Option (List Stream) × List Request :=
  let schema := if full_attribution then Schema.streamSchema else Schema.streamCondensedSchema
  BaseService._query env schema filter_by order_by privileges full_attribution

/-- From `StreamService.get_by_name`: builds the filter string
`name eq '<name>'` by interpolation, runs `query`, and returns the first
element when the result is a list with positive length, `None` otherwise. -/
def get_by_name (env : Env) (name : String) (full_attribution : Bool) :
    Option Stream × List Request :=
  let filter_by := "name eq \x27" ++ name ++ "\x27"
  let q := query env (some filter_by) none none full_attribution
  match q.1 with
  | some streams => if 0 < streams.length then (streams[0]?, q.2) else (none, q.2)
  | none => (none, q.2)

/-- From `StreamService.get_template`: delegates to `_get_template` with the
full stream schema and entity type `stream`. -/
def get_template (env : Env) (list_entries : Bool) : Option Stream × List Request :=
  BaseService._get_template env Schema.streamSchema "stream" list_entries

/-- From `StreamService.get_new_id`: fetches a template with
`list_entries=False` and returns the `id` attribute of the result.  The
attribute access has no `None` check: when the template call returns
`None`, the access raises (`AttributeError`) instead of yielding a value. -/
def get_new_id (env : Env) : Except String (Option String × List Request) :=
  let r := get_template env false
  match r.1 with
  | none => Except.error "AttributeError"
  | some stream => Except.ok (stream.id, r.2)

/-- From `StreamService.create`: when the supplied stream has no id, assigns
`get_new_id()` to it in place, then delegates to `_create`.  The result
carries the server response, the final value of the caller's stream
argument, and the emitted request trace in order. -/
def create (env : Env) (stream : Stream) (privileges : Option (List String)) :
    Except String (Option Stream × Stream × List Request) :=
  match stream.id with
  | none =>
    match get_new_id env with
    | Except.error e => Except.error e
    | Except.ok (newId, tr) =>
      let stream2 := { stream with id := newId }
      let c := BaseService._create env Schema.streamSchema stream2 privileges
      Except.ok (c.1, stream2, tr ++ c.2)
  | some _ =>
    let c := BaseService._create env Schema.streamSchema stream privileges
    Except.ok (c.1, stream, c.2)

/-- The id backfill loop of `StreamService.create_many`: walks the supplied
list in order and overwrites, in place, the id of every stream whose id is
`None` with a fresh `get_new_id()` result, one template round trip per
id-less element. -/
def backfillIds (env : Env) : List Stream → Except String (List Stream × List Request)
  | [] => Except.ok ([], [])
  | s :: rest =>
    match s.id with
    | none =>
      match get_new_id env with
      | Except.error e => Except.error e
      | Except.ok (newId, tr) =>
        match backfillIds env rest with
        | Except.error e => Except.error e
        | Except.ok (rest2, tr2) => Except.ok ({ s with id := newId } :: rest2, tr ++ tr2)
    | some _ =>
      match backfillIds env rest with
      | Except.error e => Except.error e
      | Except.ok (rest2, tr2) => Except.ok (s :: rest2, tr2)

/-- From `StreamService.create_many`: backfills missing ids in place, one
`get_new_id()` call per id-less element, then delegates the whole list to
`_create_many` in a single batch call. -/
def create_many (env : Env) (streams : List Stream) (privileges : Option (List String)) :
    Except String (Option (List Stream) × List Stream × List Request) :=
  match backfillIds env streams with
  | Except.error e => Except.error e
  | Except.ok (streams2, tr) =>
    let c := BaseService._create_many env Schema.streamSchema streams2 privileges
    Except.ok (c.1, streams2, tr ++ c.2)

end StreamService

/-- What the id backfill of `create` and `create_many` does to one stream
when the template returned by the server is `t`: an id-less stream gets
`t.id` written into its id field, a stream that already carries an id is
left untouched. -/
def backfillId (t : Stream) (s : Stream) : Stream :=
  match s.id with
  | none => { s with id := t.id }
  | some _ => s

namespace Harness

/-- A Qlik Sense app record as the end-to-end harness sees it. -/
structure App where
  id : Option String
  name : String
deriving DecidableEq

/-- The value an app query of the harness can produce: a Python list of
apps, or Python `None` when the call yields no list. -/
inductive AppQueryResult where
  | pyNone
  | pyList (xs : List App)
deriving DecidableEq

/-- The return value of Python `list.append`: it mutates the receiver in
place and always returns `None`. -/
def pyListAppendReturn : AppQueryResult := AppQueryResult.pyNone

/-- From `delete_test_apps` of `tests/test_e2e/config.py`: queries apps by
stream name and by owner; when the by-stream result is a list, binds
`test_apps` to the return value of `.append` on it (which is `None`),
otherwise binds `test_apps` to the by-owner result; then deletes each
element of `test_apps` when it is truthy.  Returns the list of apps the
loop deletes, in order. -/
def delete_test_apps (test_apps_by_stream test_apps_by_owner : AppQueryResult) : List App :=
  let test_apps : AppQueryResult :=
    match test_apps_by_stream with
    | AppQueryResult.pyList _ => pyListAppendReturn
    | AppQueryResult.pyNone => test_apps_by_owner
  match test_apps with
  | AppQueryResult.pyList xs => xs
  | AppQueryResult.pyNone => []

/-- A query result as a plain list: a Python `None` contributes nothing. -/
def toAppList : AppQueryResult → List App
  | AppQueryResult.pyNone => []
  | AppQueryResult.pyList xs => xs

/-- Deduplicate a list of apps by id, keeping the first occurrence of each
id. -/
def dedupById (apps : List App) : List App :=
  apps.foldl (fun acc a => if acc.any (fun b => b.id == a.id) then acc else acc ++ [a]) []

/-- Modelled from the spec: the intended behaviour of `delete_test_apps` is
to concatenate both query result lists, deduplicate them by id, and delete
each element.  Returns the list of apps that behaviour deletes. -/
def delete_test_apps_intended (test_apps_by_stream test_apps_by_owner : AppQueryResult) : List App :=
  dedupById (toAppList test_apps_by_stream ++ toAppList test_apps_by_owner)

end Harness

namespace ServerModel

/-- The collection of stream resources held by the remote server. -/
structure ServerState where
  streams : List Stream
deriving DecidableEq

/-- Modelled from the spec: `DELETE /qrs/stream/<id>` removes the resource
with the deleted entity's id from the server's collection. -/
def deleteById (st : ServerState) (id : Option String) : ServerState :=
  { streams := st.streams.filter (fun s => decide (s.id ≠ id)) }

/-- Modelled from the spec: `GET /qrs/stream/<id>` returns the resource
with that id, or nothing when it is not found. -/
def getById (st : ServerState) (id : String) : Option Stream :=
  st.streams.find? (fun s => decide (s.id = some id))

/-- Modelled from the spec: `BaseService._delete(entity)` issues the DELETE
of the entity by its id. -/
def _delete (st : ServerState) (entity : Stream) : ServerState :=
  deleteById st entity.id

/-- Modelled from the spec: `BaseService._get(schema, id, privileges)` GETs
the single resource by id and returns `None` when it is not found. -/
def _get (st : ServerState) (id : String) : Option Stream :=
  getById st id

/-- From `StreamService.delete`: delegates to `_delete`. -/
def delete (st : ServerState) (stream : Stream) : ServerState :=
  _delete st stream

/-- From `StreamService.get`: delegates to `_get` with the full stream
schema. -/
def get (st : ServerState) (id : String) : Option Stream :=
  _get st id

/-- From `delete_test_stream` of `tests/test_e2e/config.py`: deletes the
test stream through the stream service; the harness then asserts that a
`get` by the deleted stream's id returns `None`. -/
def delete_test_stream (st : ServerState) (test_stream : Stream) : ServerState :=
  delete st test_stream

end ServerModel

namespace ClassAttr

/-- An address of a Python list object on the heap. -/
abbrev Ref := Nat

/-- The one list object created when the class body line `requests = list()`
runs: it lives in the class dictionary of `StreamService`, created exactly
once at class definition time. -/
def requestsClassRef : Ref := 0

/-- An instance of `StreamService`, reduced to the names its instance
dictionary holds. -/
structure StreamServiceInstance where
  instanceAttrNames : List String
deriving DecidableEq

/-- From `StreamService.__init__`: sets `self.client` and `self.url` only;
`requests` is never written to the instance dictionary. -/
def initInstance : StreamServiceInstance := { instanceAttrNames := ["client", "url"] }

/-- Python attribute lookup for `inst.requests`: the instance dictionary is
consulted first; on a miss the class dictionary supplies the shared class
attribute.  `shadowRef` is the address a shadowing instance attribute would
resolve to. -/
def requestsRefOf (inst : StreamServiceInstance) (shadowRef : Ref) : Ref :=
  if inst.instanceAttrNames.contains "requests" then shadowRef else requestsClassRef

/-- The heap of Python list objects, by address. -/
abbrev Heap := Ref → List String

/-- Reading `inst.requests` under Python attribute lookup. -/
def readRequests (h : Heap) (inst : StreamServiceInstance) (shadowRef : Ref) : List String :=
  h (requestsRefOf inst shadowRef)

/-- `inst.requests.append(x)`: mutates, on the heap, the one list object
that the attribute lookup resolves to. -/
def appendRequest (h : Heap) (inst : StreamServiceInstance) (shadowRef : Ref) (x : String) : Heap :=
  fun r => if r = requestsRefOf inst shadowRef then h r ++ [x] else h r

end ClassAttr

/-- The number of single-quote characters in a string: a filter expression
of the shape `name eq '<literal>'` with a quote-free literal has exactly
two of them. -/
def quoteCount (s : String) : Nat := s.data.count '\x27'

/-- A concrete template stream as the server would hand it out. -/
def t0 : Stream := { id := some "11111111-2222-3333-4444-555555555555", name := "", owner := none }

/-- A concrete stream that already carries an id. -/
def s0 : Stream := { id := some "aaaaaaaa-bbbb-cccc-dddd-eeeeeeeeeeee", name := "pytest", owner := none }

/-- A concrete stream with no id yet. -/
def sNoId : Stream := { id := none, name := "pytest", owner := some "owner-uuid" }

/-- A concrete server environment: the template endpoint answers with `t0`,
queries answer with `[s0]`, creates succeed and confirm entities
unchanged. -/
def envA : Env :=
  { template := fun _ => some t0
    queryResp := fun _ _ _ _ => some [s0]
    createOk := true
    createManyOk := true
    confirm := fun s => s }

/-- A concrete environment whose template endpoint yields nothing. -/
def envNoTemplate : Env :=
  { template := fun _ => none
    queryResp := fun _ _ _ _ => none
    createOk := true
    createManyOk := true
    confirm := fun s => s }

/-- A concrete environment whose queries answer with the empty list. -/
def envEmptyQuery : Env :=
  { template := fun _ => some t0
    queryResp := fun _ _ _ _ => some []
    createOk := true
    createManyOk := true
    confirm := fun s => s }

/-- A concrete server state holding the one stream `s0`. -/
def stA : ServerModel.ServerState := { streams := [s0] }

/-- A concrete test app. -/
def appA1 : Harness.App := { id := some "app-uuid-1", name := "app one" }

/-- Another concrete test app with a distinct id. -/
def appA2 : Harness.App := { id := some "app-uuid-2", name := "app two" }

/-- When the template endpoint answers with `t`, `get_new_id` performs the
one template round trip and returns `t.id`. -/
theorem get_new_id_ok (env : Env) (t : Stream) (ht : env.template false = some t) :
    StreamService.get_new_id env = Except.ok (t.id, [Request.getTemplateReq "stream" false]) := by
  simp [StreamService.get_new_id, StreamService.get_template, BaseService._get_template, ht]

/-- The id backfill leaves the name of a stream unchanged. -/
theorem backfillId_name (t s : Stream) : (backfillId t s).name = s.name := by
  cases hs : s.id <;> simp [backfillId, hs]

/-- The id backfill leaves the owner of a stream unchanged. -/
theorem backfillId_owner (t s : Stream) : (backfillId t s).owner = s.owner := by
  cases hs : s.id <;> simp [backfillId, hs]

/-- The backfill loop of `create_many` maps `backfillId t` over the input
in order and performs exactly one template round trip per id-less
element. -/
theorem backfillIds_eq (env : Env) (t : Stream) (ht : env.template false = some t)
    (streams : List Stream) :
    StreamService.backfillIds env streams =
      Except.ok (streams.map (backfillId t),
        List.replicate (streams.countP fun s => s.id.isNone) (Request.getTemplateReq "stream" false)) := by
  induction streams with
  | nil => simp [StreamService.backfillIds]
  | cons s rest ih =>
    cases hs : s.id with
    | none =>
      simp [StreamService.backfillIds, get_new_id_ok env t ht, hs, ih, backfillId,
        List.countP_cons, List.replicate_succ]
    | some i =>
      simp [StreamService.backfillIds, hs, ih, backfillId, List.countP_cons]

/-- Claim C4: `query(filter_by, order_by, privileges, full_attribution)`
uses the full `StreamSchema` when `full_attribution` is true and the
`StreamCondensedSchema` otherwise, and delegates to `_query` with all four
arguments passed through unchanged. -/
theorem query_schema_dispatch (env : Env) (filter_by order_by : Option String)
    (privileges : Option (List String)) :
    StreamService.query env filter_by order_by privileges true =
      BaseService._query env Schema.streamSchema filter_by order_by privileges true
    ∧ StreamService.query env filter_by order_by privileges false =
      BaseService._query env Schema.streamCondensedSchema filter_by order_by privileges false :=
  ⟨rfl, rfl⟩

/-- Claim C2: `get_by_name(name)` queries with the filter
`name eq '<name>'` and never raises on absence: when the underlying query
yields a list with at least one match it returns the first element; with
zero matches, or when the query yields no list, it returns `None`. -/
theorem get_by_name_first_match_or_none (env : Env) (name : String) (fa : Bool) :
    (StreamService.get_by_name env name fa).2 =
      [Request.queryReq (if fa then Schema.streamSchema else Schema.streamCondensedSchema)
        (some ("name eq \x27" ++ name ++ "\x27")) none none fa]
    ∧ (StreamService.get_by_name env name fa).1 =
        match env.queryResp (if fa then Schema.streamSchema else Schema.streamCondensedSchema)
            (some ("name eq \x27" ++ name ++ "\x27")) none none with
        | some (x :: _) => some x
        | some [] => none
        | none => none := by
  cases h : env.queryResp (if fa then Schema.streamSchema else Schema.streamCondensedSchema)
      (some ("name eq \x27" ++ name ++ "\x27")) none none with
  | none =>
    simp [StreamService.get_by_name, StreamService.query, BaseService._query, h]
  | some l =>
    cases l with
    | nil => simp [StreamService.get_by_name, StreamService.query, BaseService._query, h]
    | cons x rest => simp [StreamService.get_by_name, StreamService.query, BaseService._query, h]

/-- Claim C10: `get_by_name` builds its filter by direct interpolation with
no escaping: the filter sent is exactly the concatenation of
`name eq '`, the name, and `'`; its quote count is the name's plus two, so
a name containing a single quote produces a filter with more than the two
quotes of a well-formed expression. -/
theorem get_by_name_filter_interpolation (env : Env) (name : String) (fa : Bool) :
    (StreamService.get_by_name env name fa).2 =
      [Request.queryReq (if fa then Schema.streamSchema else Schema.streamCondensedSchema)
        (some ("name eq \x27" ++ name ++ "\x27")) none none fa]
    ∧ quoteCount ("name eq \x27" ++ name ++ "\x27") = quoteCount name + 2
    ∧ (name.data.contains '\x27' = true →
        2 < quoteCount ("name eq \x27" ++ name ++ "\x27")) := by
  refine ⟨?_, ?_, ?_⟩
  · cases h : env.queryResp (if fa then Schema.streamSchema else Schema.streamCondensedSchema)
        (some ("name eq \x27" ++ name ++ "\x27")) none none with
    | none => simp [StreamService.get_by_name, StreamService.query, BaseService._query, h]
    | some l =>
      cases l with
      | nil => simp [StreamService.get_by_name, StreamService.query, BaseService._query, h]
      | cons x rest =>
        simp [StreamService.get_by_name, StreamService.query, BaseService._query, h]
  · simp [quoteCount, String.data_append, List.count_append]
  · intro hc
    have hm : '\x27' ∈ name.data := by simpa using hc
    have hpos : 0 < name.data.count '\x27' := List.count_pos_iff.mpr hm
    have he : quoteCount ("name eq \x27" ++ name ++ "\x27") = quoteCount name + 2 := by
      simp [quoteCount, String.data_append, List.count_append]
    have : 0 < quoteCount name := hpos
    omega

/-- Witness for claim C10 at a name containing a single quote. -/
theorem get_by_name_filter_interpolation_witness :
    2 < quoteCount ("name eq \x27" ++ "O\x27Hara" ++ "\x27") :=
  (get_by_name_filter_interpolation envA "O\x27Hara" false).2.2 rfl

/-- Claim C1: `create` on a stream whose id is `None` first obtains a new
id via `get_new_id()` — one extra template round trip — and assigns it to
the stream, so a non-null id is in place before the create request is
sent; on a stream that already has an id no id fetch occurs and `create`
delegates directly to `_create`. -/
theorem create_id_backfill (env : Env) (s : Stream) (p : Option (List String)) (t : Stream)
    (ht : env.template false = some t) :
    (s.id = none →
      StreamService.create env s p =
        Except.ok ((if env.createOk then some (env.confirm { s with id := t.id }) else none),
          { s with id := t.id },
          [Request.getTemplateReq "stream" false, Request.createReq { s with id := t.id }])
      ∧ (t.id.isSome = true → ({ s with id := t.id } : Stream).id.isSome = true))
    ∧ (∀ i : String, s.id = some i →
      StreamService.create env s p =
        Except.ok ((if env.createOk then some (env.confirm s) else none), s,
          [Request.createReq s])) := by
  constructor
  · intro hs
    constructor
    · simp [StreamService.create, hs, get_new_id_ok env t ht, BaseService._create]
    · intro h
      simpa using h
  · intro i hs
    simp [StreamService.create, hs, BaseService._create]

/-- Witness for claim C1: an id-less create fetches the template id first
and sends it in the create request; a create with an id delegates
directly. -/
theorem create_id_backfill_witness :
    (StreamService.create envA sNoId none =
      Except.ok ((if envA.createOk then some (envA.confirm { sNoId with id := t0.id }) else none),
        { sNoId with id := t0.id },
        [Request.getTemplateReq "stream" false, Request.createReq { sNoId with id := t0.id }])
     ∧ ({ sNoId with id := t0.id } : Stream).id.isSome = true)
    ∧ StreamService.create envA s0 none =
        Except.ok ((if envA.createOk then some (envA.confirm s0) else none), s0,
          [Request.createReq s0]) := by
  have h := create_id_backfill envA sNoId none t0 rfl
  have h2 := create_id_backfill envA s0 none t0 rfl
  exact ⟨⟨(h.1 rfl).1, (h.1 rfl).2 rfl⟩,
         h2.2 "aaaaaaaa-bbbb-cccc-dddd-eeeeeeeeeeee" rfl⟩

/-- Claim C8: under the precondition that the template call returns a
stream, `get_new_id` returns exactly that template's id; with a valid
(non-null) template id it never returns `None`; and when the template call
returns `None`, the unguarded `.id` access fails instead of yielding a
value. -/
theorem get_new_id_template_id_safety (env : Env) :
    (∀ t : Stream, env.template false = some t →
      StreamService.get_new_id env = Except.ok (t.id, [Request.getTemplateReq "stream" false]))
    ∧ (∀ t : Stream, env.template false = some t → t.id ≠ none →
      ∀ tr : List Request, StreamService.get_new_id env ≠ Except.ok (none, tr))
    ∧ (env.template false = none →
      StreamService.get_new_id env = Except.error "AttributeError") := by
  refine ⟨?_, ?_, ?_⟩
  · intro t ht
    exact get_new_id_ok env t ht
  · intro t ht hid tr hcontra
    rw [get_new_id_ok env t ht] at hcontra
    simp at hcontra
    exact hid hcontra.1
  · intro h0
    simp [StreamService.get_new_id, StreamService.get_template, BaseService._get_template, h0]

/-- Witness for claim C8 at a concrete environment with a template and one
without. -/
theorem get_new_id_template_id_safety_witness :
    StreamService.get_new_id envA = Except.ok (t0.id, [Request.getTemplateReq "stream" false])
    ∧ StreamService.get_new_id envA ≠ Except.ok (none, [Request.getTemplateReq "stream" false])
    ∧ StreamService.get_new_id envNoTemplate = Except.error "AttributeError" :=
  ⟨(get_new_id_template_id_safety envA).1 t0 rfl,
   (get_new_id_template_id_safety envA).2.1 t0 rfl (by simp [t0])
     [Request.getTemplateReq "stream" false],
   (get_new_id_template_id_safety envNoTemplate).2.2 rfl⟩

/-- Claim C5: `create_many` backfills the id of each id-less element with
a separate `get_new_id()` call — one template round trip per id-less
element, no batching of id fetches — before the single batch create, and
the returned list has the same length and order as the input, with names
matching the input names in order. -/
theorem create_many_id_backfill_order (env : Env) (streams : List Stream)
    (p : Option (List String)) (t : Stream)
    (ht : env.template false = some t)
    (hok : env.createManyOk = true)
    (hname : ∀ s : Stream, (env.confirm s).name = s.name) :
    StreamService.create_many env streams p =
      Except.ok (some ((streams.map (backfillId t)).map env.confirm),
        streams.map (backfillId t),
        List.replicate (streams.countP fun s => s.id.isNone) (Request.getTemplateReq "stream" false)
          ++ [Request.createManyReq (streams.map (backfillId t))])
    ∧ ((streams.map (backfillId t)).map env.confirm).length = streams.length
    ∧ ((streams.map (backfillId t)).map env.confirm).map Stream.name = streams.map Stream.name := by
  refine ⟨?_, ?_, ?_⟩
  · simp [StreamService.create_many, backfillIds_eq env t ht, BaseService._create_many, hok]
  · simp
  · induction streams with
    | nil => simp
    | cons s rest ih => simp [ih, hname, backfillId_name]

/-- Witness for claim C5 on a two-element batch, one element id-less. -/
theorem create_many_id_backfill_order_witness :
    StreamService.create_many envA [sNoId, s0] none =
      Except.ok (some (([sNoId, s0].map (backfillId t0)).map envA.confirm),
        [sNoId, s0].map (backfillId t0),
        List.replicate (([sNoId, s0] : List Stream).countP fun s => s.id.isNone)
            (Request.getTemplateReq "stream" false)
          ++ [Request.createManyReq ([sNoId, s0].map (backfillId t0))])
    ∧ (([sNoId, s0].map (backfillId t0)).map envA.confirm).length =
        ([sNoId, s0] : List Stream).length
    ∧ (([sNoId, s0].map (backfillId t0)).map envA.confirm).map Stream.name =
        [sNoId, s0].map Stream.name :=
  create_many_id_backfill_order envA [sNoId, s0] none t0 rfl rfl (fun _ => rfl)

/-- Claim C9: `create` and `create_many` mutate their arguments in place:
every id-less stream passed in has its id field overwritten with the newly
fetched template id — all its other fields unchanged — and every stream
that already carries an id is passed through entirely unchanged. -/
theorem create_mutates_argument_in_place (env : Env) (p : Option (List String)) (t : Stream)
    (ht : env.template false = some t) :
    (∀ s : Stream, s.id = none →
      StreamService.create env s p =
        Except.ok ((if env.createOk then some (env.confirm { s with id := t.id }) else none),
          { s with id := t.id },
          [Request.getTemplateReq "stream" false, Request.createReq { s with id := t.id }]))
    ∧ (∀ (s : Stream) (i : String), s.id = some i →
      StreamService.create env s p =
        Except.ok ((if env.createOk then some (env.confirm s) else none), s,
          [Request.createReq s]))
    ∧ (∀ streams : List Stream,
      StreamService.create_many env streams p =
        Except.ok ((if env.createManyOk
            then some ((streams.map (backfillId t)).map env.confirm) else none),
          streams.map (backfillId t),
          List.replicate (streams.countP fun s => s.id.isNone) (Request.getTemplateReq "stream" false)
            ++ [Request.createManyReq (streams.map (backfillId t))]))
    ∧ (∀ s : Stream, (backfillId t s).name = s.name ∧ (backfillId t s).owner = s.owner
        ∧ (s.id = none → (backfillId t s).id = t.id)
        ∧ (∀ i : String, s.id = some i → backfillId t s = s)) := by
  refine ⟨?_, ?_, ?_, ?_⟩
  · intro s hs
    simp [StreamService.create, hs, get_new_id_ok env t ht, BaseService._create]
  · intro s i hs
    simp [StreamService.create, hs, BaseService._create]
  · intro streams
    simp [StreamService.create_many, backfillIds_eq env t ht, BaseService._create_many]
  · intro s
    refine ⟨backfillId_name t s, backfillId_owner t s, ?_, ?_⟩
    · intro hs
      simp [backfillId, hs]
    · intro i hs
      simp [backfillId, hs]

/-- Witness for claim C9: the caller's id-less stream comes back with the
template id written into it and its other fields intact; a stream with an
id comes back unchanged. -/
theorem create_mutates_argument_in_place_witness :
    StreamService.create envA sNoId none =
      Except.ok ((if envA.createOk then some (envA.confirm { sNoId with id := t0.id }) else none),
        { sNoId with id := t0.id },
        [Request.getTemplateReq "stream" false, Request.createReq { sNoId with id := t0.id }])
    ∧ StreamService.create envA s0 none =
        Except.ok ((if envA.createOk then some (envA.confirm s0) else none), s0,
          [Request.createReq s0])
    ∧ (backfillId t0 sNoId).name = sNoId.name
    ∧ (backfillId t0 sNoId).owner = sNoId.owner := by
  have h := create_mutates_argument_in_place envA none t0 rfl
  exact ⟨h.1 sNoId rfl,
         h.2.1 s0 "aaaaaaaa-bbbb-cccc-dddd-eeeeeeeeeeee" rfl,
         (h.2.2.2 sNoId).1,
         (h.2.2.2 sNoId).2.1⟩

/-- Claim C6: deleting a created stream and then getting it by its id
yields nothing: after `delete(E)`, a `get(E.id)` returns `None`. -/
theorem delete_then_get_returns_none (st : ServerModel.ServerState) (E : Stream) (i : String)
    (hid : E.id = some i) :
    ServerModel.get (ServerModel.delete_test_stream st E) i = none := by
  simp [ServerModel.get, ServerModel._get, ServerModel.getById, ServerModel.delete_test_stream,
    ServerModel.delete, ServerModel._delete, ServerModel.deleteById, List.find?_eq_none,
    List.mem_filter, hid]

/-- Witness for claim C6 on a server holding one stream. -/
theorem delete_then_get_returns_none_witness :
    ServerModel.get (ServerModel.delete_test_stream stA s0)
      "aaaaaaaa-bbbb-cccc-dddd-eeeeeeeeeeee" = none :=
  delete_then_get_returns_none stA s0 "aaaaaaaa-bbbb-cccc-dddd-eeeeeeeeeeee" rfl

/-- Claim C7: the `requests` attribute of `StreamService` is a single
mutable class-level list shared across all instances: `__init__` never
shadows it, so every instance's attribute lookup resolves to the same list
object, and an element appended through one instance is visible when the
list is read through any other instance. -/
theorem requests_shared_across_instances :
    ClassAttr.initInstance.instanceAttrNames.contains "requests" = false
    ∧ (∀ r1 r2 : ClassAttr.Ref,
        ClassAttr.requestsRefOf ClassAttr.initInstance r1 =
          ClassAttr.requestsRefOf ClassAttr.initInstance r2)
    ∧ (∀ (r1 r2 : ClassAttr.Ref) (h : ClassAttr.Heap) (x : String),
        ClassAttr.readRequests (ClassAttr.appendRequest h ClassAttr.initInstance r1 x)
          ClassAttr.initInstance r2 =
        ClassAttr.readRequests h ClassAttr.initInstance r2 ++ [x]) := by
  have hc : ClassAttr.initInstance.instanceAttrNames.contains "requests" = false := by decide
  have hm : "requests" ∉ ClassAttr.initInstance.instanceAttrNames := by decide
  refine ⟨hc, ?_, ?_⟩
  · intro r1 r2
    simp [ClassAttr.requestsRefOf, hm]
  · intro r1 r2 h x
    simp [ClassAttr.readRequests, ClassAttr.appendRequest, ClassAttr.requestsRefOf, hm]

/-- Claim C3: in `delete_test_apps`, when the query by stream name returns
a list, `test_apps` is bound to the return value of `.append` on it —
`None`, the appended list being discarded — so the deletion loop is
skipped and no apps are deleted in that branch, whereas the intended
behaviour deletes the concatenation of both query result lists,
deduplicated by id.  The concrete instance shows the divergence. -/
theorem delete_test_apps_list_branch_deletes_nothing :
    (∀ (xs : List Harness.App) (q : Harness.AppQueryResult),
      Harness.delete_test_apps (Harness.AppQueryResult.pyList xs) q = []
      ∧ Harness.delete_test_apps_intended (Harness.AppQueryResult.pyList xs) q =
          Harness.dedupById (xs ++ Harness.toAppList q))
    ∧ Harness.delete_test_apps (Harness.AppQueryResult.pyList [appA1])
        (Harness.AppQueryResult.pyList [appA2]) = []
    ∧ Harness.delete_test_apps_intended (Harness.AppQueryResult.pyList [appA1])
        (Harness.AppQueryResult.pyList [appA2]) = [appA1, appA2] :=
  ⟨fun xs q => ⟨rfl, rfl⟩, rfl, by decide⟩

end QlikSense
